import Mathlib

/-!
# IceUtil: `Time` and the thread exceptions

A shallow embedding of `cpp/include/IceUtil/Time.h` and
`cpp/src/IceUtil/ThreadException.cpp`.

* `Int64` values are integers reduced to the signed 64-bit range by `wrap64`.
* An `ostream` is the text written to it so far; `os << x` appends.
* The operating system is explicit: `OsState` holds `errno`, the Win32 last-error
  value and the buffers handed out by `FormatMessage` and not yet released, and
  `Env` holds the collaborators the file calls but does not define
  (`Exception::ice_print`, `strerror`, the Win32 message table).
* `#ifdef _WIN32` is a `Platform` argument.

`Time.h` only declares the members of `Time`; their bodies (`Time.cpp`) are modelled
from the specification and are marked as such.
-/

namespace IceUtil

/-! ## Machine integers -/

/-- Reduction of an integer to the range of `Int64`, two's complement, modulo `2 ^ 64`. -/
def wrap64 (x : Int) : Int := (x + 2 ^ 63) % 2 ^ 64 - 2 ^ 63

/-- Reduction of an integer to a signed field of `w` bits (a `long` is 32 or 64 bits wide,
depending on the platform). -/
def wrapSigned (w : Nat) (x : Int) : Int := (x + 2 ^ (w - 1)) % 2 ^ w - 2 ^ (w - 1)

/-! ## Time -/

/-- The class `Time` of `Time.h`: its only data member is `Int64 _usec`. -/
structure Time where
  _usec : Int
deriving DecidableEq, Repr

/-- The values an `Int64 _usec` can hold. -/
def Time.valid (t : Time) : Prop := -2 ^ 63 ≤ t._usec ∧ t._usec < 2 ^ 63

instance (t : Time) : Decidable t.valid := by
  unfold Time.valid
  exact inferInstance

/-- The pair `struct timeval`: seconds and microseconds. -/
structure timeval where
  tv_sec : Int
  tv_usec : Int
deriving DecidableEq, Repr

/-- Modelled from the spec: the body of `Time::seconds(long)`, declared in `Time.h` and
defined in `Time.cpp`, which is missing. "Each multiplies the input by the appropriate
constant (1,000,000 / 1,000 / 1) with no clamping"; the product is stored in the signed
64-bit microsecond count. -/
def Time.seconds (t : Int) : Time := ⟨wrap64 (t * 1000000)⟩

/-- Modelled from the spec: the body of `Time::milliSeconds(long)` (`Time.cpp` is missing):
the input multiplied by 1,000, no clamping, stored in the 64-bit microsecond count. -/
def Time.milliSeconds (t : Int) : Time := ⟨wrap64 (t * 1000)⟩

/-- Modelled from the spec: the body of `Time::microSeconds(long long)` (`Time.cpp` is
missing): the input multiplied by 1, no clamping, stored in the 64-bit microsecond count. -/
def Time.microSeconds (t : Int) : Time := ⟨wrap64 (t * 1)⟩

/-- Modelled from the spec: the body of the unary `Time::operator-` (`Time.cpp` is missing).
Arithmetic "operates purely on the microsecond count; no overflow checking". -/
def Time.neg (a : Time) : Time := ⟨wrap64 (-a._usec)⟩

/-- Modelled from the spec: the body of the binary `Time::operator-` (`Time.cpp` is
missing): the difference of the microsecond counts, no overflow checking. -/
def Time.sub (a b : Time) : Time := ⟨wrap64 (a._usec - b._usec)⟩

/-- Modelled from the spec: the body of `Time::operator+` (`Time.cpp` is missing): the sum
of the microsecond counts, no overflow checking. -/
def Time.add (a b : Time) : Time := ⟨wrap64 (a._usec + b._usec)⟩

/-- Modelled from the spec: the body of `Time::operator<` (`Time.cpp` is missing):
comparison "by microsecond count". -/
def Time.lt (a b : Time) : Bool := decide (a._usec < b._usec)

/-- Modelled from the spec: the body of `Time::operator<=` (`Time.cpp` is missing). -/
def Time.le (a b : Time) : Bool := decide (a._usec ≤ b._usec)

/-- Modelled from the spec: the body of `Time::operator>` (`Time.cpp` is missing). -/
def Time.gt (a b : Time) : Bool := decide (a._usec > b._usec)

/-- Modelled from the spec: the body of `Time::operator>=` (`Time.cpp` is missing). -/
def Time.ge (a b : Time) : Bool := decide (a._usec ≥ b._usec)

/-- Modelled from the spec: the body of `Time::operator==` (`Time.cpp` is missing). -/
def Time.eq (a b : Time) : Bool := decide (a._usec = b._usec)

/-- Modelled from the spec: the body of `Time::operator!=` (`Time.cpp` is missing). -/
def Time.ne (a b : Time) : Bool := decide (a._usec ≠ b._usec)

/-- Modelled from the spec: the body of `Time::operator timeval` (`Time.cpp` is missing).
"seconds = value ÷ 1,000,000", the division of the host language (truncating toward zero),
then the explicit floor adjustment: "if the remainder is negative, decrement seconds by one
and add 1,000,000 to the remainder". The seconds are stored in the `long tv_sec` field of
the pair, `w` bits wide; the remainder always fits the `long tv_usec` field. -/
def Time.timeval (w : Nat) (t : Time) : timeval :=
  let sec := Int.tdiv t._usec 1000000
  let usec := Int.tmod t._usec 1000000
  if usec < 0 then
    { tv_sec := wrapSigned w (sec - 1), tv_usec := usec + 1000000 }
  else
    { tv_sec := wrapSigned w sec, tv_usec := usec }

/-! ## The operating system and the collaborators of `ThreadException.cpp` -/

/-- The two branches of `#ifdef _WIN32`. -/
inductive Platform where
  | win32
  | posix
deriving DecidableEq, Repr

/-- A message buffer that `FormatMessage` allocates under `FORMAT_MESSAGE_ALLOCATE_BUFFER`:
the handle `LocalFree` takes, and the C string it holds (the characters before the
terminating NUL, so that `strlen` is the length of `contents`). -/
structure Buffer where
  handle : Nat
  contents : String
deriving DecidableEq, Repr

/-- What a call of `FormatMessage` can do: fail (it returns 0, allocates nothing and leaves
`lpMsgBuf` as it was), or succeed (it returns the non-zero `DWORD` `okPred + 1` and stores
in `lpMsgBuf` the buffer it allocated). -/
inductive LookupOutcome where
  | failure
  | success (okPred : Nat) (buf : Buffer)
deriving DecidableEq, Repr

/-- The state of the operating system that the file reads or changes: `errno`, the value
of `GetLastError()`, and the handles of the buffers allocated by `FormatMessage` that
have not been released. -/
structure OsState where
  errno : Int
  lastError : Int
  outstanding : List Nat
deriving DecidableEq, Repr

/-- The collaborators that `ThreadException.cpp` calls and does not define:
`basePrint file line name` is the text `Exception::ice_print` writes for an exception with
that file, line and (virtual) `ice_name`; `strerror` is the C library lookup;
`formatMessage` is the outcome of the Win32 message-table lookup for a code. -/
structure Env where
  basePrint : String → Int → String → String
  strerror : Int → String
  formatMessage : Int → LookupOutcome

/-- The call `FormatMessage(FORMAT_MESSAGE_ALLOCATE_BUFFER | ..., _error, ..., &lpMsgBuf, ...)`
with `lpMsgBuf` initialised to 0: the returned `DWORD`, the value of `lpMsgBuf` after the
call, and the state, in which a buffer allocated by the call is outstanding. -/
def FormatMessage (env : Env) (code : Int) (st : OsState) : Nat × Option Buffer × OsState :=
  match env.formatMessage code with
  | .failure => (0, none, st)
  | .success okPred buf =>
      (okPred + 1, some buf, { st with outstanding := buf.handle :: st.outstanding })

/-- The call `LocalFree(lpMsgBuf)`: the buffer is no longer outstanding. -/
def LocalFree (lpMsgBuf : Option Buffer) (st : OsState) : OsState :=
  match lpMsgBuf with
  | none => st
  | some buf => { st with outstanding := st.outstanding.erase buf.handle }

/-! ## The thread exceptions -/

/-- The class `ThreadSyscallException`: the file and line of the base `Exception`, and the
member `_error`. -/
structure ThreadSyscallException where
  file : String
  line : Int
  _error : Int
deriving DecidableEq, Repr

/-- The class `ThreadLockedException`: the file and line of the base `Exception`. -/
structure ThreadLockedException where
  file : String
  line : Int
deriving DecidableEq, Repr

/-- An `Exception*` pointing to one of the two classes of the file. -/
inductive Exception where
  | threadSyscall (e : ThreadSyscallException)
  | threadLocked (e : ThreadLockedException)
deriving DecidableEq, Repr

/-- The result of writing to a stream: the contents of the stream, the state of the
operating system, and whether the method returned (`false`: an `assert` failed). -/
structure PrintResult where
  os : String
  st : OsState
  returned : Bool
deriving DecidableEq, Repr

/-- The constructor `ThreadSyscallException(file, line)`:
`Exception(file, line), _error(GetLastError())` under `_WIN32`, `_error(errno)` otherwise. -/
def ThreadSyscallException.ctor (p : Platform) (file : String) (line : Int)
    (st : OsState) : ThreadSyscallException :=
  { file := file
    line := line
    _error := match p with
      | .win32 => st.lastError
      | .posix => st.errno }

/-- The method `ThreadSyscallException::ice_name`. -/
def ThreadSyscallException.ice_name (_e : ThreadSyscallException) : String :=
  "IceUtil::ThreadSyscallException"

/-- The call `Exception::ice_print(os)`: the base description is appended to the stream. -/
def Exception.base_ice_print (env : Env) (file : String) (line : Int) (name : String)
    (os : String) : String :=
  os ++ env.basePrint file line name

/-- The method `ThreadSyscallException::ice_print`. -/
def ThreadSyscallException.ice_print (p : Platform) (env : Env) (e : ThreadSyscallException)
    (os : String) (st : OsState) : PrintResult :=
  let os := Exception.base_ice_print env e.file e.line e.ice_name os
  if e._error ≠ 0 then
    let os := os ++ ":\nthread syscall exception: "
    match p with
    | .win32 =>
      match FormatMessage env e._error st with
      | (ok, lpMsgBuf, st) =>
        if ok ≠ 0 then
          match lpMsgBuf with
          | some msg =>
            if msg.contents.length > 0 then
              { os := os ++ msg.contents, st := LocalFree lpMsgBuf st, returned := true }
            else
              { os := os, st := st, returned := false }
          | none => { os := os, st := st, returned := false }
        else
          { os := os ++ "unknown thread error", st := st, returned := true }
    | .posix => { os := os ++ env.strerror e._error, st := st, returned := true }
  else
    { os := os, st := st, returned := true }

/-- The method `ThreadSyscallException::ice_clone`: `new ThreadSyscallException(*this)`,
the copy constructor copying every member. -/
def ThreadSyscallException.ice_clone (e : ThreadSyscallException) : Exception :=
  .threadSyscall { file := e.file, line := e.line, _error := e._error }

/-- The constructor `ThreadLockedException(file, line)`: `Exception(file, line)`. -/
def ThreadLockedException.ctor (file : String) (line : Int)
    (_st : OsState) : ThreadLockedException :=
  { file := file, line := line }

/-- The method `ThreadLockedException::ice_name`. -/
def ThreadLockedException.ice_name (_e : ThreadLockedException) : String :=
  "IceUtil::ThreadLockedException"

/-- The method `ice_print` of a `ThreadLockedException`: the class does not override it, so
it is `Exception::ice_print`. -/
def ThreadLockedException.ice_print (env : Env) (e : ThreadLockedException)
    (os : String) (st : OsState) : PrintResult :=
  { os := Exception.base_ice_print env e.file e.line e.ice_name os, st := st, returned := true }

/-- The method `ThreadLockedException::ice_clone`: `new ThreadLockedException(*this)`. -/
def ThreadLockedException.ice_clone (e : ThreadLockedException) : Exception :=
  .threadLocked { file := e.file, line := e.line }

/-- The virtual call `ice_name` through an `Exception*`. -/
def Exception.ice_name : Exception → String
  | .threadSyscall e => e.ice_name
  | .threadLocked e => e.ice_name

/-- The virtual call `ice_print` through an `Exception*`. -/
def Exception.ice_print (p : Platform) (env : Env) (x : Exception) (os : String)
    (st : OsState) : PrintResult :=
  match x with
  | .threadSyscall e => e.ice_print p env os st
  | .threadLocked e => e.ice_print env os st

/-- The virtual call `ice_clone` through an `Exception*`. -/
def Exception.ice_clone : Exception → Exception
  | .threadSyscall e => e.ice_clone
  | .threadLocked e => e.ice_clone

/-- A message table in which code 5 has a message and every other lookup fails. -/
def sampleEnv : Env :=
  { basePrint := fun file line name => file ++ ":" ++ toString line ++ ": " ++ name
    strerror := fun c => if c = 13 then "Permission denied" else "Unknown error"
    formatMessage := fun c =>
      if c = 5 then .success 16 { handle := 7, contents := "Access is denied." } else .failure }

/-- The documented contract of `FormatMessage`: "if the function succeeds, the return
value is the number of TCHARs stored in the output buffer, excluding the terminating null
character". The returned `DWORD` of a success is `okPred + 1`. -/
def Win32Contract (env : Env) : Prop :=
  ∀ (c : Int) (okPred : Nat) (buf : Buffer),
    env.formatMessage c = .success okPred buf → okPred + 1 = buf.contents.length

/-- An operating-system state with one outstanding buffer. -/
def sampleState : OsState := { errno := 11, lastError := 5, outstanding := [3] }

/-! ## Lemmas on machine integers -/

theorem wrap64_of_range (x : Int) (h1 : -2 ^ 63 ≤ x) (h2 : x < 2 ^ 63) : wrap64 x = x := by
  unfold wrap64
  omega

theorem wrap64_range (x : Int) : -2 ^ 63 ≤ wrap64 x ∧ wrap64 x < 2 ^ 63 := by
  unfold wrap64
  omega

theorem wrap64_idem (x : Int) : wrap64 (wrap64 x) = wrap64 x := by
  unfold wrap64
  omega

theorem wrapSigned_of_range (w : Nat) (x : Int) (hw : 0 < w)
    (h1 : -2 ^ (w - 1) ≤ x) (h2 : x < 2 ^ (w - 1)) : wrapSigned w x = x := by
  unfold wrapSigned
  have hpow : (2 : Int) ^ w = 2 * 2 ^ (w - 1) := by
    obtain ⟨k, rfl⟩ : ∃ k, w = k + 1 := ⟨w - 1, by omega⟩
    simp [pow_succ, mul_comm]
  rw [Int.emod_eq_of_lt (by omega) (by omega)]
  omega

/-- Truncating division by 1,000,000 and its remainder, characterised. -/
theorem tdiv_tmod_million (a : Int) :
    1000000 * Int.tdiv a 1000000 + Int.tmod a 1000000 = a ∧
    (0 ≤ a → 0 ≤ Int.tmod a 1000000 ∧ Int.tmod a 1000000 < 1000000) ∧
    (a < 0 → -1000000 < Int.tmod a 1000000 ∧ Int.tmod a 1000000 ≤ 0) := by
  refine ⟨Int.tdiv_add_tmod a 1000000, ?_, ?_⟩
  · intro h
    exact ⟨Int.tmod_nonneg _ h, Int.tmod_lt_of_pos _ (by decide)⟩
  · intro h
    have hn : Int.tmod (-a) 1000000 = -Int.tmod a 1000000 := by
      rw [Int.tmod_def, Int.tmod_def, Int.neg_tdiv]
      ring
    have h0 : 0 ≤ Int.tmod (-a) 1000000 := Int.tmod_nonneg _ (by omega)
    have h1 : Int.tmod (-a) 1000000 < 1000000 := Int.tmod_lt_of_pos _ (by decide)
    omega

theorem two_le_two_pow_pred (w : Nat) (hw : 2 ≤ w) : (2 : Int) ≤ 2 ^ (w - 1) := by
  obtain ⟨k, rfl⟩ : ∃ k, w = k + 2 := ⟨w - 2, by omega⟩
  have h1 : (1 : Int) ≤ 2 ^ k := one_le_pow₀ (by decide)
  have h2 : (2 : Int) ^ (k + 2 - 1) = 2 * 2 ^ k := by
    have : k + 2 - 1 = k + 1 := by omega
    rw [this, pow_succ, mul_comm]
  omega

/-! ## Time: the claims -/

/-- C1: for every `Time` whose floored seconds fit the `w`-bit seconds field of the pair,
the conversion to `timeval` yields a microsecond part in `[0, 1000000)`, with
`sec * 1000000 + usec` equal to the microsecond count; `sec` is the floor of the count
divided by 1,000,000, one less than the truncated quotient whenever the count is negative
and not a whole number of seconds; and -1,500,000 microseconds convert to
`sec = -2`, `usec = 500000`. -/
theorem timeval_is_floor (w : Nat) (t : Time) (hw : 0 < w)
    (hlo : -2 ^ (w - 1) ≤ t._usec / 1000000) (hhi : t._usec / 1000000 < 2 ^ (w - 1)) :
    0 ≤ (t.timeval w).tv_usec ∧ (t.timeval w).tv_usec < 1000000 ∧
    (t.timeval w).tv_sec * 1000000 + (t.timeval w).tv_usec = t._usec ∧
    (t.timeval w).tv_sec = Int.fdiv t._usec 1000000 ∧
    (t._usec < 0 → ¬ (1000000 ∣ t._usec) →
      (t.timeval w).tv_sec = Int.tdiv t._usec 1000000 - 1) ∧
    (2 ≤ w → Time.timeval w (Time.microSeconds (-1500000)) =
      { tv_sec := -2, tv_usec := 500000 }) := by
  obtain ⟨hdiv, hpos, hneg⟩ := tdiv_tmod_million t._usec
  have hfl : Int.fdiv t._usec 1000000 = t._usec / 1000000 :=
    Int.fdiv_eq_ediv _ (by decide)
  have hex : ∀ v : Nat, 2 ≤ v → Time.timeval v (Time.microSeconds (-1500000)) =
      { tv_sec := -2, tv_usec := 500000 } := by
    intro v hv
    have h2 := two_le_two_pow_pred v hv
    have hu : (Time.microSeconds (-1500000))._usec = -1500000 := by decide
    have hq : Int.tdiv (-1500000) 1000000 = -1 := by decide
    have hr : Int.tmod (-1500000) 1000000 = -500000 := by decide
    have hws : wrapSigned v (-1 - 1) = -2 :=
      wrapSigned_of_range v (-1 - 1) (by omega) (by omega) (by omega)
    simp only [Time.timeval, hu, hq, hr, hws]
    rw [if_pos (by decide)]
    rfl
  refine ⟨?_, ?_, ?_, ?_, ?_, hex w⟩
  all_goals
    rw [Time.timeval]
    by_cases hlt : Int.tmod t._usec 1000000 < 0
    · have hs : wrapSigned w (Int.tdiv t._usec 1000000 - 1) = Int.tdiv t._usec 1000000 - 1 :=
        wrapSigned_of_range w _ hw (by omega) (by omega)
      simp only [hlt, if_true, hs]
      first
        | omega
        | (intro h1 h2; trivial)
    · have hs : wrapSigned w (Int.tdiv t._usec 1000000) = Int.tdiv t._usec 1000000 :=
        wrapSigned_of_range w _ hw (by omega) (by omega)
      simp only [hlt, if_false, hs]
      omega

/-- C1, at -1,500,000 microseconds and a 32-bit seconds field. -/
theorem timeval_is_floor_witness :
    Time.timeval 32 (Time.microSeconds (-1500000)) = { tv_sec := -2, tv_usec := 500000 } ∧
    ((Time.microSeconds (-1500000)).timeval 32).tv_sec =
      Int.fdiv (Time.microSeconds (-1500000))._usec 1000000 :=
  ⟨(timeval_is_floor 32 (Time.microSeconds (-1500000)) (by decide) (by decide)
      (by decide)).2.2.2.2.2 (by decide),
   (timeval_is_floor 32 (Time.microSeconds (-1500000)) (by decide) (by decide)
      (by decide)).2.2.2.1⟩

/-- C5: `seconds(n)` equals `microSeconds(n * 1000000)` and `milliSeconds(n)` equals
`microSeconds(n * 1000)`, the product being the 64-bit microsecond count, reduced modulo
`2 ^ 64` and not clamped; for an argument in the range of a 32-bit `long` the count is
the exact product. -/
theorem seconds_milliSeconds_as_microSeconds (n : Int) :
    (Time.seconds n).eq (Time.microSeconds (wrap64 (n * 1000000))) = true ∧
    (Time.milliSeconds n).eq (Time.microSeconds (wrap64 (n * 1000))) = true ∧
    Time.seconds n = Time.microSeconds (n * 1000000) ∧
    Time.milliSeconds n = Time.microSeconds (n * 1000) ∧
    (Time.seconds n)._usec = (n * 1000000 + 2 ^ 63) % 2 ^ 64 - 2 ^ 63 ∧
    (Time.milliSeconds n)._usec = (n * 1000 + 2 ^ 63) % 2 ^ 64 - 2 ^ 63 ∧
    (-2 ^ 31 ≤ n → n < 2 ^ 31 →
      (Time.seconds n)._usec = n * 1000000 ∧ (Time.milliSeconds n)._usec = n * 1000) := by
  simp only [Time.eq, Time.seconds, Time.milliSeconds, Time.microSeconds, mul_one,
    wrap64_idem, decide_True, true_and, Time.mk.injEq]
  refine ⟨rfl, rfl, ?_⟩
  intro h1 h2
  unfold wrap64
  omega

/-- C6: for every `Time` `a` holding a signed 64-bit count and every `b`, with the
arithmetic taken modulo `2 ^ 64`: `(a - b) + b == a`, `-(-a) == a` and `a + b == b + a`. -/
theorem time_arithmetic_laws (a b : Time) (ha : a.valid) :
    ((a.sub b).add b).eq a = true ∧ (a.neg.neg).eq a = true ∧
    (a.add b).eq (b.add a) = true := by
  obtain ⟨h1, h2⟩ := ha
  simp only [Time.eq, Time.add, Time.sub, Time.neg, decide_eq_true_eq]
  unfold wrap64
  refine ⟨?_, ?_, ?_⟩ <;> omega

/-- C6, at the least 64-bit count, where the difference and the negation wrap. -/
theorem time_arithmetic_laws_witness :
    (Time.mk (-9223372036854775808)).valid ∧
    (((Time.mk (-9223372036854775808)).sub (Time.mk 1)).add (Time.mk 1)).eq
      (Time.mk (-9223372036854775808)) = true ∧
    ((Time.mk (-9223372036854775808)).neg.neg).eq (Time.mk (-9223372036854775808)) = true ∧
    ((Time.mk (-9223372036854775808)).add (Time.mk 1)).eq
      ((Time.mk 1).add (Time.mk (-9223372036854775808))) = true :=
  ⟨by decide, time_arithmetic_laws (Time.mk (-9223372036854775808)) (Time.mk 1) (by decide)⟩

/-- C7: for all `Time` values exactly one of `a < b`, `a == b`, `a > b` holds; each of the
six operators is the corresponding relation of the integer order on the microsecond
counts; `<=` is the negation of `>`, `>=` of `<`, and `!=` of `==`. -/
theorem time_comparison_total (a b : Time) :
    ((a.lt b = true ∧ a.eq b = false ∧ a.gt b = false) ∨
     (a.lt b = false ∧ a.eq b = true ∧ a.gt b = false) ∨
     (a.lt b = false ∧ a.eq b = false ∧ a.gt b = true)) ∧
    (a.lt b = true ↔ a._usec < b._usec) ∧ (a.le b = true ↔ a._usec ≤ b._usec) ∧
    (a.gt b = true ↔ b._usec < a._usec) ∧ (a.ge b = true ↔ b._usec ≤ a._usec) ∧
    (a.eq b = true ↔ a._usec = b._usec) ∧ (a.ne b = true ↔ a._usec ≠ b._usec) ∧
    (a.le b = true ↔ ¬ a.gt b = true) ∧ (a.ge b = true ↔ ¬ a.lt b = true) ∧
    (a.ne b = true ↔ ¬ a.eq b = true) := by
  refine ⟨?_, ?_, ?_, ?_, ?_, ?_, ?_, ?_, ?_, ?_⟩ <;>
    simp only [Time.lt, Time.le, Time.gt, Time.ge, Time.eq, Time.ne, decide_eq_true_eq,
      decide_eq_false_iff_not, gt_iff_lt, ge_iff_le] <;>
    omega

/-! ## `ThreadSyscallException::ice_print`, path by path -/

theorem intro_length : ":\nthread syscall exception: ".length = 28 := by decide

theorem ice_print_code_zero (p : Platform) (env : Env) (e : ThreadSyscallException)
    (os : String) (st : OsState) (h : e._error = 0) :
    e.ice_print p env os st =
      { os := os ++ env.basePrint e.file e.line e.ice_name, st := st, returned := true } := by
  simp [ThreadSyscallException.ice_print, Exception.base_ice_print, h]

theorem ice_print_posix (env : Env) (e : ThreadSyscallException)
    (os : String) (st : OsState) (h : e._error ≠ 0) :
    e.ice_print .posix env os st =
      { os := os ++ env.basePrint e.file e.line e.ice_name ++ ":\nthread syscall exception: "
          ++ env.strerror e._error,
        st := st, returned := true } := by
  simp [ThreadSyscallException.ice_print, Exception.base_ice_print, h]

theorem ice_print_lookup_failure (env : Env) (e : ThreadSyscallException)
    (os : String) (st : OsState) (h : e._error ≠ 0)
    (hf : env.formatMessage e._error = .failure) :
    e.ice_print .win32 env os st =
      { os := os ++ env.basePrint e.file e.line e.ice_name ++ ":\nthread syscall exception: "
          ++ "unknown thread error",
        st := st, returned := true } := by
  simp [ThreadSyscallException.ice_print, Exception.base_ice_print, FormatMessage, h, hf]

theorem ice_print_lookup_success (env : Env) (e : ThreadSyscallException)
    (os : String) (st : OsState) (h : e._error ≠ 0) (k : Nat) (buf : Buffer)
    (hs : env.formatMessage e._error = .success k buf) (hlen : 0 < buf.contents.length) :
    e.ice_print .win32 env os st =
      { os := os ++ env.basePrint e.file e.line e.ice_name ++ ":\nthread syscall exception: "
          ++ buf.contents,
        st := st, returned := true } := by
  simp [ThreadSyscallException.ice_print, Exception.base_ice_print, FormatMessage, LocalFree,
    h, hs, hlen]

theorem ice_print_lookup_empty (env : Env) (e : ThreadSyscallException)
    (os : String) (st : OsState) (h : e._error ≠ 0) (k : Nat) (buf : Buffer)
    (hs : env.formatMessage e._error = .success k buf) (hlen : buf.contents.length = 0) :
    e.ice_print .win32 env os st =
      { os := os ++ env.basePrint e.file e.line e.ice_name ++ ":\nthread syscall exception: ",
        st := { st with outstanding := buf.handle :: st.outstanding }, returned := false } := by
  simp [ThreadSyscallException.ice_print, Exception.base_ice_print, FormatMessage, LocalFree,
    h, hs, hlen]

/-- The text and the completion of `ice_print` do not depend on the state of the
operating system in which it runs. -/
theorem ice_print_text_state_free (p : Platform) (env : Env) (e : ThreadSyscallException)
    (os : String) (st st' : OsState) :
    (e.ice_print p env os st).os = (e.ice_print p env os st').os ∧
    (e.ice_print p env os st).returned = (e.ice_print p env os st').returned := by
  by_cases h : e._error = 0
  · simp [ice_print_code_zero p env e os _ h]
  · cases p with
    | posix => simp [ice_print_posix env e os _ h]
    | win32 =>
      cases hf : env.formatMessage e._error with
      | failure => simp [ice_print_lookup_failure env e os _ h hf]
      | success k buf =>
        by_cases hlen : 0 < buf.contents.length
        · simp [ice_print_lookup_success env e os _ h k buf hf hlen]
        · simp [ice_print_lookup_empty env e os _ h k buf hf (by omega)]

/-! ## The thread exceptions: the claims -/

/-- C2: `ThreadSyscallException::ice_print` writes exactly the base description when the
stored code is 0; when it is not 0 it writes the base description, then
":\nthread syscall exception: ", then the message of the platform for the code
(`strerror` of the code outside Windows; on Windows the contents of the buffer of a
successful lookup, or "unknown thread error" when the lookup fails), a suffix that is not
empty; so the text written is the base description if and only if the code is 0. -/
theorem syscall_ice_print_text (p : Platform) (env : Env) (e : ThreadSyscallException)
    (os : String) (st : OsState) :
    (e._error = 0 →
      (e.ice_print p env os st).os = os ++ env.basePrint e.file e.line e.ice_name) ∧
    (e._error ≠ 0 → ∃ msg : String,
      (e.ice_print p env os st).os =
        os ++ env.basePrint e.file e.line e.ice_name ++ ":\nthread syscall exception: "
          ++ msg ∧
      0 < (":\nthread syscall exception: " ++ msg).length ∧
      (p = .posix → msg = env.strerror e._error) ∧
      (p = .win32 → env.formatMessage e._error = .failure → msg = "unknown thread error") ∧
      (p = .win32 → ∀ k buf, env.formatMessage e._error = .success k buf →
        msg = buf.contents)) ∧
    ((e.ice_print p env os st).os = os ++ env.basePrint e.file e.line e.ice_name ↔
      e._error = 0) := by
  have hpos : ∀ msg : String, 0 < (":\nthread syscall exception: " ++ msg).length := by
    intro msg
    rw [String.length_append, intro_length]
    omega
  have hne : e._error ≠ 0 → ∃ msg : String,
      (e.ice_print p env os st).os =
        os ++ env.basePrint e.file e.line e.ice_name ++ ":\nthread syscall exception: "
          ++ msg ∧
      0 < (":\nthread syscall exception: " ++ msg).length ∧
      (p = .posix → msg = env.strerror e._error) ∧
      (p = .win32 → env.formatMessage e._error = .failure → msg = "unknown thread error") ∧
      (p = .win32 → ∀ k buf, env.formatMessage e._error = .success k buf →
        msg = buf.contents) := by
    intro h
    cases p with
    | posix =>
      refine ⟨env.strerror e._error, ?_, hpos _, fun _ => rfl, ?_, ?_⟩
      · rw [ice_print_posix env e os st h]
      · intro hp; cases hp
      · intro hp; cases hp
    | win32 =>
      cases hf : env.formatMessage e._error with
      | failure =>
        refine ⟨"unknown thread error", ?_, hpos _, ?_, fun _ _ => rfl, ?_⟩
        · rw [ice_print_lookup_failure env e os st h hf]
        · intro hp; cases hp
        · intro _ k buf hs; cases hs
      | success k buf =>
        refine ⟨buf.contents, ?_, hpos _, ?_, ?_, ?_⟩
        · by_cases hlen : 0 < buf.contents.length
          · rw [ice_print_lookup_success env e os st h k buf hf hlen]
          · rw [ice_print_lookup_empty env e os st h k buf hf (by omega)]
            have h0 : buf.contents.length = 0 := by omega
            have hemp : buf.contents = "" := String.ext (List.length_eq_zero.mp h0)
            rw [hemp, String.append_empty]
        · intro hp; cases hp
        · intro _ hs; cases hs
        · intro _ k2 buf2 hs
          cases hs
          rfl
  refine ⟨fun h => by rw [ice_print_code_zero p env e os st h], hne, ?_, ?_⟩
  · intro heq
    by_contra h
    obtain ⟨msg, hmsg, hlen, _⟩ := hne h
    rw [hmsg] at heq
    have hl := congrArg String.length heq
    simp only [String.length_append, intro_length] at hl
    omega
  · intro h
    rw [ice_print_code_zero p env e os st h]

/-- C3: `ice_clone` of a `ThreadSyscallException` is a `ThreadSyscallException` with the
same file, line and stored code, `ice_clone` of a `ThreadLockedException` is a
`ThreadLockedException` with the same file and line; the clone has the `ice_name` of the
original and `ice_print` writes the same text for both under the same message lookup. -/
theorem ice_clone_same_name_and_text :
    (∀ e : ThreadSyscallException, ∃ c : ThreadSyscallException,
      e.ice_clone = .threadSyscall c ∧ c.file = e.file ∧ c.line = e.line ∧
      c._error = e._error) ∧
    (∀ e : ThreadLockedException, ∃ c : ThreadLockedException,
      e.ice_clone = .threadLocked c ∧ c.file = e.file ∧ c.line = e.line) ∧
    (∀ x : Exception, x.ice_clone.ice_name = x.ice_name ∧
      ∀ (p : Platform) (env : Env) (os : String) (st : OsState),
        x.ice_clone.ice_print p env os st = x.ice_print p env os st) := by
  refine ⟨fun e => ⟨_, rfl, rfl, rfl, rfl⟩, fun e => ⟨_, rfl, rfl, rfl⟩, ?_⟩
  intro x
  cases x with
  | threadSyscall e => exact ⟨rfl, fun _ _ _ _ => rfl⟩
  | threadLocked e => exact ⟨rfl, fun _ _ _ _ => rfl⟩

/-- C4: rendering a `ThreadSyscallException` never fails visibly. With `FormatMessage`
keeping its contract (the non-zero value it returns is the number of characters it
stored), for every stored code and every outcome of the lookup, success with any returned
buffer or failure, on either platform, `ice_print` returns and its assertion holds; and
when the lookup fails the message written after ":\nthread syscall exception: " is
exactly "unknown thread error". -/
theorem syscall_ice_print_completes (p : Platform) (env : Env) (e : ThreadSyscallException)
    (os : String) (st : OsState) (hos : Win32Contract env) :
    (e.ice_print p env os st).returned = true ∧
    (p = .win32 → e._error ≠ 0 → env.formatMessage e._error = .failure →
      (e.ice_print p env os st).os =
        os ++ env.basePrint e.file e.line e.ice_name ++ ":\nthread syscall exception: "
          ++ "unknown thread error") := by
  constructor
  · by_cases h : e._error = 0
    · rw [ice_print_code_zero p env e os st h]
    · cases p with
      | posix => rw [ice_print_posix env e os st h]
      | win32 =>
        cases hf : env.formatMessage e._error with
        | failure => rw [ice_print_lookup_failure env e os st h hf]
        | success k buf =>
          have hlen : 0 < buf.contents.length := by
            have := hos e._error k buf hf
            omega
          rw [ice_print_lookup_success env e os st h k buf hf hlen]
  · intro hp h hf
    subst hp
    rw [ice_print_lookup_failure env e os st h hf]

/-- C4, at a message table in which the lookup of code 5 succeeds with the 17 characters
of "Access is denied." and the lookup of code 6 fails. -/
theorem syscall_ice_print_completes_witness :
    Win32Contract sampleEnv ∧
    (ThreadSyscallException.ice_print .win32 sampleEnv
      { file := "Thread.cpp", line := 42, _error := 5 } "" sampleState).returned = true ∧
    (ThreadSyscallException.ice_print .win32 sampleEnv
      { file := "Thread.cpp", line := 42, _error := 6 } "" sampleState).os =
      "" ++ sampleEnv.basePrint "Thread.cpp" 42 "IceUtil::ThreadSyscallException"
        ++ ":\nthread syscall exception: " ++ "unknown thread error" := by
  have hc : Win32Contract sampleEnv := by
    intro c k buf h
    by_cases h5 : c = 5
    · have h2 : sampleEnv.formatMessage c =
          .success 16 { handle := 7, contents := "Access is denied." } := by
        simp [sampleEnv, h5]
      have h4 := h2.symm.trans h
      injection h4 with hk hb
      rw [← hk, ← hb]
      decide
    · have h2 : sampleEnv.formatMessage c = .failure := by
        simp [sampleEnv, h5]
      rw [h2] at h
      cases h
  exact ⟨hc,
    (syscall_ice_print_completes .win32 sampleEnv
      { file := "Thread.cpp", line := 42, _error := 5 } "" sampleState hc).1,
    (syscall_ice_print_completes .win32 sampleEnv
      { file := "Thread.cpp", line := 42, _error := 6 } "" sampleState hc).2
      rfl (by decide) (by decide)⟩

/-- C8: a `ThreadLockedException` constructed from a file and a line renders exactly the
base description for that file and line, nothing appended; the text is the same whatever
the state of the operating system (`errno`, the last-error value) at construction and
at print time. -/
theorem locked_ice_print_base_only (env : Env) (file : String) (line : Int) (os : String)
    (st0 st1 : OsState) :
    ((ThreadLockedException.ctor file line st0).ice_print env os st1).os =
      os ++ env.basePrint file line "IceUtil::ThreadLockedException" ∧
    ((ThreadLockedException.ctor file line st0).ice_print env os st1).returned = true ∧
    ((ThreadLockedException.ctor file line st0).ice_print env os st1).st = st1 ∧
    (∀ st0' st1' : OsState,
      ((ThreadLockedException.ctor file line st0').ice_print env os st1').os =
        ((ThreadLockedException.ctor file line st0).ice_print env os st1).os) :=
  ⟨rfl, rfl, rfl, fun _ _ => rfl⟩

/-- C9: whenever `ThreadSyscallException::ice_print` returns, the buffers allocated by
the operating system and not released are those outstanding before the call; it returns
with that set unchanged when the stored code is 0, when the lookup fails, when the lookup
succeeds with a non-empty message (the buffer, outstanding after `FormatMessage`, has been
released by `LocalFree`), and outside Windows. -/
theorem syscall_ice_print_releases_buffers (p : Platform) (env : Env)
    (e : ThreadSyscallException) (os : String) (st : OsState) :
    ((e.ice_print p env os st).returned = true →
      (e.ice_print p env os st).st.outstanding = st.outstanding) ∧
    (e._error = 0 → (e.ice_print p env os st).returned = true ∧
      (e.ice_print p env os st).st.outstanding = st.outstanding) ∧
    (p = .posix → (e.ice_print p env os st).returned = true ∧
      (e.ice_print p env os st).st.outstanding = st.outstanding) ∧
    (p = .win32 → e._error ≠ 0 → env.formatMessage e._error = .failure →
      (e.ice_print p env os st).returned = true ∧
      (e.ice_print p env os st).st.outstanding = st.outstanding) ∧
    (p = .win32 → e._error ≠ 0 → ∀ k buf, env.formatMessage e._error = .success k buf →
      0 < buf.contents.length →
      (FormatMessage env e._error st).2.2.outstanding = buf.handle :: st.outstanding ∧
      (e.ice_print p env os st).returned = true ∧
      (e.ice_print p env os st).st.outstanding = st.outstanding) := by
  refine ⟨?_, ?_, ?_, ?_, ?_⟩
  · by_cases h : e._error = 0
    · rw [ice_print_code_zero p env e os st h]
      exact fun _ => rfl
    · cases p with
      | posix =>
        rw [ice_print_posix env e os st h]
        exact fun _ => rfl
      | win32 =>
        cases hf : env.formatMessage e._error with
        | failure =>
          rw [ice_print_lookup_failure env e os st h hf]
          exact fun _ => rfl
        | success k buf =>
          by_cases hlen : 0 < buf.contents.length
          · rw [ice_print_lookup_success env e os st h k buf hf hlen]
            exact fun _ => rfl
          · rw [ice_print_lookup_empty env e os st h k buf hf (by omega)]
            intro hr
            cases hr
  · intro h
    rw [ice_print_code_zero p env e os st h]
    exact ⟨rfl, rfl⟩
  · intro hp
    subst hp
    by_cases h : e._error = 0
    · rw [ice_print_code_zero .posix env e os st h]
      exact ⟨rfl, rfl⟩
    · rw [ice_print_posix env e os st h]
      exact ⟨rfl, rfl⟩
  · intro hp h hf
    subst hp
    rw [ice_print_lookup_failure env e os st h hf]
    exact ⟨rfl, rfl⟩
  · intro hp h k buf hs hlen
    subst hp
    rw [ice_print_lookup_success env e os st h k buf hs hlen]
    refine ⟨?_, rfl, rfl⟩
    simp [FormatMessage, hs]

/-- C10: the code stored by the constructor of `ThreadSyscallException` is the last-error
value of the operating system when the constructor runs (`GetLastError()` on Windows,
`errno` otherwise), and `ice_print` renders that stored code: in every later state of the
operating system, whatever its last-error value has become, the text written for the
constructed exception is the base description alone when the captured value is 0, and
otherwise the base description, ":\nthread syscall exception: " and the message of the
platform for the captured value. -/
theorem syscall_error_captured_at_construction (env : Env) (file : String) (line : Int)
    (os : String) (st0 : OsState) :
    (ThreadSyscallException.ctor .win32 file line st0)._error = st0.lastError ∧
    (ThreadSyscallException.ctor .posix file line st0)._error = st0.errno ∧
    (∀ st : OsState,
      (st0.errno = 0 →
        ((ThreadSyscallException.ctor .posix file line st0).ice_print .posix env os st).os =
          os ++ env.basePrint file line "IceUtil::ThreadSyscallException") ∧
      (st0.errno ≠ 0 →
        ((ThreadSyscallException.ctor .posix file line st0).ice_print .posix env os st).os =
          os ++ env.basePrint file line "IceUtil::ThreadSyscallException"
            ++ ":\nthread syscall exception: " ++ env.strerror st0.errno) ∧
      (st0.lastError = 0 →
        ((ThreadSyscallException.ctor .win32 file line st0).ice_print .win32 env os st).os =
          os ++ env.basePrint file line "IceUtil::ThreadSyscallException") ∧
      (st0.lastError ≠ 0 → env.formatMessage st0.lastError = .failure →
        ((ThreadSyscallException.ctor .win32 file line st0).ice_print .win32 env os st).os =
          os ++ env.basePrint file line "IceUtil::ThreadSyscallException"
            ++ ":\nthread syscall exception: " ++ "unknown thread error") ∧
      (st0.lastError ≠ 0 → ∀ k buf, env.formatMessage st0.lastError = .success k buf →
        ((ThreadSyscallException.ctor .win32 file line st0).ice_print .win32 env os st).os =
          os ++ env.basePrint file line "IceUtil::ThreadSyscallException"
            ++ ":\nthread syscall exception: " ++ buf.contents)) ∧
    (∀ (p : Platform) (st1 st2 : OsState),
      ((ThreadSyscallException.ctor p file line st0).ice_print p env os st1).os =
        ((ThreadSyscallException.ctor p file line st0).ice_print p env os st2).os ∧
      ((ThreadSyscallException.ctor p file line st0).ice_print p env os st1).returned =
        ((ThreadSyscallException.ctor p file line st0).ice_print p env os st2).returned) := by
  refine ⟨rfl, rfl, ?_, fun p st1 st2 => ice_print_text_state_free p env _ os st1 st2⟩
  intro st
  refine ⟨?_, ?_, ?_, ?_, ?_⟩
  · intro h
    rw [ice_print_code_zero .posix env _ os st h]
    rfl
  · intro h
    rw [ice_print_posix env _ os st h]
    rfl
  · intro h
    rw [ice_print_code_zero .win32 env _ os st h]
    rfl
  · intro h hf
    rw [ice_print_lookup_failure env _ os st h hf]
    rfl
  · intro h k buf hs
    by_cases hlen : 0 < buf.contents.length
    · rw [ice_print_lookup_success env _ os st h k buf hs hlen]
      rfl
    · rw [ice_print_lookup_empty env _ os st h k buf hs (by omega)]
      have h0 : buf.contents.length = 0 := by omega
      have hemp : buf.contents = "" := String.ext (List.length_eq_zero.mp h0)
      rw [hemp, String.append_empty]
      rfl

end IceUtil
